import Mathlib

/-!
# Verification of the wordle game engine and store

Shallow embedding of the core of the `ads-ayazs/wordle` repository:
the per-guess scoring algorithm (`scoreWord`), the game lifecycle state
machine (`Create` / `Play` / `Resign`), and the keyed in-memory store
(`Save` / `Load` / `Exists` / `Delete`).  Words are modelled as `List Char`
(Go indexes strings by byte; all words here are ASCII).  JSON reports are
modelled symbolically by the `Report` type: the engine never inspects the
serialized text, only which shape of report is produced.
-/

namespace Wordle

/-- Modelled from the spec: the `config` package is not under `src/`; the
spec fixes the configured word length (`CONFIG_GAME_WORDLENGTH`) at 5,
and the dictionary tests assert every dictionary word has length 5. -/
def CONFIG_GAME_WORDLENGTH : Nat := 5

/-- The `LetterHint` enum from the game package: Green, Yellow, Grey. -/
inductive LetterHint where
  | Green
  | Yellow
  | Grey
deriving DecidableEq, Repr

/-- The `GameStatusType` enum from the game package. -/
inductive GameStatusType where
  | InPlay
  | Won
  | Lost
  | Resigned
deriving DecidableEq, Repr

/-- The error values the game and store return (Go returns `error` values;
we name each distinct failure). -/
inductive GameError where
  | GameFinished
  | OutOfTurns
  | WordInvalid
deriving DecidableEq, Repr

/-- The `WordleAttempt` record: one guess with its per-letter hints. -/
structure WordleAttempt where
  tryWord : List Char
  isValidWord : Bool
  tryResult : List LetterHint
deriving DecidableEq, Repr

/-- The `wordleGame` struct: id, status, secret word, attempt history. -/
structure WordleGame where
  id : String
  status : GameStatusType
  secretWord : List Char
  attempts : List WordleAttempt
deriving DecidableEq, Repr

/-- Embedding of `scoreWord` for a single position `i` (the body of the
`for` loop in `wordleGame.scoreWord`).  `strings.Count(s, string(c))`
is `List.count c` on the corresponding character list; Go's slice
`s[a:b]` is `(s.take b).drop a`.  Note the source slices the right-hand
windows as `[i : CONFIG_GAME_WORDLENGTH-1]`, excluding the final letter. -/
def scoreLetter (secret tryWord : List Char) (i : Nat) : LetterHint :=
  let tc := tryWord.getD i ' '
  if secret.getD i ' ' = tc then
    LetterHint.Green
  else if 0 < secret.count tc then
    let countLeft := (secret.take i).count tc
    if 0 < countLeft ∧ (tryWord.take i).count tc ≤ countLeft then
      LetterHint.Yellow
    else
      let countRight := ((secret.take (CONFIG_GAME_WORDLENGTH - 1)).drop i).count tc
      if 0 < countRight ∧
          ((tryWord.take (CONFIG_GAME_WORDLENGTH - 1)).drop i).count tc ≤ countRight then
        LetterHint.Yellow
      else
        LetterHint.Grey
  else
    LetterHint.Grey

/-- Embedding of `wordleGame.scoreWord`: the hint at every position
`0 ≤ i < CONFIG_GAME_WORDLENGTH`, in order. -/
def scoreWord (secret tryWord : List Char) : List LetterHint :=
  (List.range CONFIG_GAME_WORDLENGTH).map (scoreLetter secret tryWord)

/-- Number of Green positions the canonical policy assigns to letter `c`:
positions where guess and secret agree and carry `c`. -/
def greensFor (secret tryWord : List Char) (c : Char) : Nat :=
  ((List.range CONFIG_GAME_WORDLENGTH).filter
    (fun i => tryWord.getD i ' ' = c ∧ secret.getD i ' ' = c)).length

/-- The canonical two-phase scoring policy, written from the spec's words
(for comparison with the source's `scoreWord`): position `i` is Green
exactly when the letters agree; otherwise letter `c = guess[i]` is Yellow
when the number of earlier non-Green occurrences of `c` in the guess is
below the budget `count c secret - greensFor c`, and Grey otherwise. -/
def canonicalScore (secret tryWord : List Char) : List LetterHint :=
  (List.range CONFIG_GAME_WORDLENGTH).map (fun i =>
    let c := tryWord.getD i ' '
    if secret.getD i ' ' = c then
      LetterHint.Green
    else if ((List.range i).filter
        (fun j => tryWord.getD j ' ' = c ∧ ¬ secret.getD j ' ' = c)).length
        < secret.count c - greensFor secret tryWord c then
      LetterHint.Yellow
    else
      LetterHint.Grey)

/-- The number of positions of the guess holding letter `c` that are hinted
non-Grey (Green or Yellow) by `hints`. -/
def creditCount (hints : List LetterHint) (tryWord : List Char) (c : Char) : Nat :=
  ((List.range CONFIG_GAME_WORDLENGTH).filter
    (fun i => tryWord.getD i ' ' = c ∧ ¬ hints.getD i LetterHint.Grey = LetterHint.Grey)).length

/-- Modelled from the spec: `validateWord` is not under `src/` (only its call
sites are).  Per §4.3, a word must be exactly the configured word length and
pass the Word Source membership check, case-insensitively, normalized to
lower-case; otherwise validation fails with `WordInvalid`.  The dictionary
is abstracted as the membership predicate `dict`. -/
def validateWord (dict : List Char → Bool) (w : List Char) : Except GameError (List Char) :=
  let lw := w.map Char.toLower
  if w.length = CONFIG_GAME_WORDLENGTH ∧ dict lw = true then Except.ok lw
  else Except.error GameError.WordInvalid

/-- Modelled from the spec: `WordleAttempt.isWinner` is not under `src/`.
Per §4.3 step 5, an attempt wins exactly when the guess is a full match,
i.e. every hint is Green. -/
def isWinner (a : WordleAttempt) : Bool :=
  a.tryResult.all (fun h => h == LetterHint.Green)

/-- The reports Play/Resign return, modelled symbolically: a status report,
a turn report (status fields merged with the attempt), or the literal
empty-object string. -/
inductive Report where
  | statusRep (g : WordleGame)
  | turnRep (g : WordleGame) (a : WordleAttempt)
  | emptyObject
deriving DecidableEq, Repr

/-- The outcome of one engine call: the mutated game, the report string
returned as first component, and the error returned as second component. -/
structure PlayResult where
  game : WordleGame
  report : Report
  err : Option GameError
deriving DecidableEq, Repr

/-- Embedding of `wordleGame.Play`.  Mirrors the source order of checks:
`GameFinished` when the status is not InPlay (no mutation), `OutOfTurns`
(forcing Lost) when six or more attempts are already recorded, word
validation returning the literal empty object on failure, then append of
the attempt, scoring, and the Won/Lost end-of-game update.  The store
save (which cannot fail on the engine's non-empty ids) is modelled
separately by the store operations below. -/
def Play (dict : List Char → Bool) (g : WordleGame) (tryWord : List Char) : PlayResult :=
  if ¬ g.status = GameStatusType.InPlay then
    { game := g, report := Report.statusRep g, err := some GameError.GameFinished }
  else if 6 ≤ g.attempts.length then
    let g1 : WordleGame := { g with status := GameStatusType.Lost }
    { game := g1, report := Report.statusRep g1, err := some GameError.OutOfTurns }
  else
    match validateWord dict tryWord with
    | Except.error e => { game := g, report := Report.emptyObject, err := some e }
    | Except.ok tw =>
      let attempt : WordleAttempt :=
        { tryWord := tw, isValidWord := true, tryResult := scoreWord g.secretWord tw }
      let g1 : WordleGame := { g with attempts := g.attempts ++ [attempt] }
      let g2 : WordleGame :=
        if isWinner attempt then { g1 with status := GameStatusType.Won }
        else if 6 ≤ g1.attempts.length then { g1 with status := GameStatusType.Lost }
        else g1
      { game := g2, report := Report.turnRep g2 attempt, err := none }

/-- Embedding of `wordleGame.Resign`: unconditionally set Resigned and
return the status report with no error. -/
def Resign (g : WordleGame) : PlayResult :=
  let g1 : WordleGame := { g with status := GameStatusType.Resigned }
  { game := g1, report := Report.statusRep g1, err := none }

/-- Embedding of `game.Create` for a caller-supplied secret: validate the
secret, then build the fresh game with the opaque id, empty attempt history
and status InPlay.  The id generator (`xid`) is abstracted as the `id`
argument. -/
def Create (dict : List Char → Bool) (id : String) (secretWord : List Char) :
    Except GameError WordleGame :=
  match validateWord dict secretWord with
  | Except.error e => Except.error e
  | Except.ok sw =>
    Except.ok { id := id, status := GameStatusType.InPlay, secretWord := sw, attempts := [] }

/-- Games reachable through the engine: a successful `Create`, followed by
any sequence of `Play` and `Resign` calls. -/
inductive Reachable (dict : List Char → Bool) : WordleGame → Prop where
  | create (id : String) (sw : List Char) (g : WordleGame) :
      Create dict id sw = Except.ok g → Reachable dict g
  | play (g : WordleGame) (w : List Char) :
      Reachable dict g → Reachable dict (Play dict g w).game
  | resign (g : WordleGame) :
      Reachable dict g → Reachable dict (Resign g).game

/-- Store error values from the store package (`ErrInvalidId`, `ErrNotFound`). -/
inductive StoreError where
  | InvalidId
  | NotFound
deriving DecidableEq, Repr

/-- Embedding of `validateId`: an error exactly when the id string is empty
(`len(id) < 1`). -/
def validateId (id : String) : Option StoreError :=
  if id.length < 1 then some StoreError.InvalidId else none

/-- The in-memory store state: the `games` map, modelled as an association
list keyed by id. -/
structure WordleStoreState (V : Type) where
  games : List (String × V)
deriving DecidableEq, Repr

/-- Map lookup on the association list (Go `s.games[id]`). -/
def storeFind {V : Type} : List (String × V) → String → Option V
  | [], _ => none
  | p :: rest, id => if p.1 = id then some p.2 else storeFind rest id

/-- Embedding of `wordleStore.Save`: reject an empty id, otherwise insert
or overwrite the record at `id`. -/
def wsSave {V : Type} (s : WordleStoreState V) (id : String) (v : V) :
    WordleStoreState V × Option StoreError :=
  match validateId id with
  | some e => (s, some e)
  | none => (⟨(id, v) :: s.games.filter (fun p => ¬ p.1 = id)⟩, none)

/-- Embedding of `wordleStore.Load`: reject an empty id, otherwise return
the record, or `none` with no error when the id is absent. -/
def wsLoad {V : Type} (s : WordleStoreState V) (id : String) :
    Option V × Option StoreError :=
  match validateId id with
  | some e => (none, some e)
  | none => (storeFind s.games id, none)

/-- Embedding of `wordleStore.Exists`. -/
def wsExists {V : Type} (s : WordleStoreState V) (id : String) :
    Bool × Option StoreError :=
  match validateId id with
  | some e => (false, some e)
  | none => ((storeFind s.games id).isSome, none)

/-- Embedding of `wordleStore.Delete`: reject an empty id; when the id is
present remove it; otherwise the source returns `ErrInvalidId` (not
`ErrNotFound`). -/
def wsDelete {V : Type} (s : WordleStoreState V) (id : String) :
    WordleStoreState V × Option StoreError :=
  match validateId id with
  | some e => (s, some e)
  | none =>
    if (storeFind s.games id).isSome then
      (⟨s.games.filter (fun p => ¬ p.1 = id)⟩, none)
    else
      (s, some StoreError.InvalidId)

/-- The strengthened state-machine invariant the engine maintains: bounded
attempt count; while InPlay the budget is not exhausted and no attempt has
won; Won means the last appended attempt won; Lost means exactly six
attempts, none winning. -/
def GameInv (g : WordleGame) : Prop :=
  g.attempts.length ≤ 6 ∧
  (g.status = GameStatusType.InPlay →
    g.attempts.length < 6 ∧ ∀ a ∈ g.attempts, isWinner a = false) ∧
  (g.status = GameStatusType.Won →
    ∃ pre a, g.attempts = pre ++ [a] ∧ isWinner a = true) ∧
  (g.status = GameStatusType.Lost →
    g.attempts.length = 6 ∧ ∀ a ∈ g.attempts, isWinner a = false)

lemma gameInv_create {dict : List Char → Bool} {id : String} {sw : List Char}
    {g : WordleGame} (h : Create dict id sw = Except.ok g) : GameInv g := by
  unfold Create at h
  cases hv : validateWord dict sw with
  | error e => rw [hv] at h; exact absurd h (by simp)
  | ok tw =>
    rw [hv] at h
    cases h
    refine ⟨by simp, by simp, by simp, by simp⟩

/-- The game produced by the successful-validation branch of `Play`. -/
def playStep (g : WordleGame) (tw : List Char) : WordleGame × WordleAttempt :=
  let attempt : WordleAttempt :=
    { tryWord := tw, isValidWord := true, tryResult := scoreWord g.secretWord tw }
  let g1 : WordleGame := { g with attempts := g.attempts ++ [attempt] }
  let g2 : WordleGame :=
    if isWinner attempt then { g1 with status := GameStatusType.Won }
    else if 6 ≤ g1.attempts.length then { g1 with status := GameStatusType.Lost }
    else g1
  (g2, attempt)

lemma Play_not_inPlay {dict : List Char → Bool} {g : WordleGame} {w : List Char}
    (h : ¬ g.status = GameStatusType.InPlay) :
    Play dict g w =
      { game := g, report := Report.statusRep g, err := some GameError.GameFinished } := by
  simp [Play, h]

lemma Play_out_of_turns_eq {dict : List Char → Bool} {g : WordleGame} {w : List Char}
    (hs : g.status = GameStatusType.InPlay) (h6 : 6 ≤ g.attempts.length) :
    Play dict g w =
      { game := { g with status := GameStatusType.Lost },
        report := Report.statusRep { g with status := GameStatusType.Lost },
        err := some GameError.OutOfTurns } := by
  simp [Play, hs, h6]

lemma Play_invalid_eq {dict : List Char → Bool} {g : WordleGame} {w : List Char}
    {e : GameError} (hs : g.status = GameStatusType.InPlay)
    (h6 : ¬ 6 ≤ g.attempts.length) (hv : validateWord dict w = Except.error e) :
    Play dict g w = { game := g, report := Report.emptyObject, err := some e } := by
  simp [Play, hs, h6, hv]

lemma Play_valid_eq {dict : List Char → Bool} {g : WordleGame} {w : List Char}
    {tw : List Char} (hs : g.status = GameStatusType.InPlay)
    (h6 : ¬ 6 ≤ g.attempts.length) (hv : validateWord dict w = Except.ok tw) :
    Play dict g w =
      { game := (playStep g tw).1,
        report := Report.turnRep (playStep g tw).1 (playStep g tw).2,
        err := none } := by
  simp [Play, hs, h6, hv, playStep]

lemma gameInv_play {dict : List Char → Bool} {g : WordleGame} {w : List Char}
    (h : GameInv g) : GameInv (Play dict g w).game := by
  obtain ⟨hlen, hip, hwon, hlost⟩ := h
  by_cases hs : g.status = GameStatusType.InPlay
  · obtain ⟨hlt, hnw⟩ := hip hs
    have h6 : ¬ 6 ≤ g.attempts.length := by omega
    cases hv : validateWord dict w with
    | error e =>
      rw [Play_invalid_eq hs h6 hv]
      exact ⟨hlen, hip, hwon, hlost⟩
    | ok tw =>
      rw [Play_valid_eq hs h6 hv]
      set attempt : WordleAttempt :=
        { tryWord := tw, isValidWord := true, tryResult := scoreWord g.secretWord tw } with ha
      by_cases hw : isWinner attempt = true
      · have hstep : (playStep g tw).1 =
            { g with attempts := g.attempts ++ [attempt], status := GameStatusType.Won } := by
          simp [playStep, ← ha, hw]
        rw [hstep]
        refine ⟨by simp; omega, by simp, ?_, by simp⟩
        intro _
        exact ⟨g.attempts, attempt, rfl, hw⟩
      · have hwf : isWinner attempt = false := Bool.not_eq_true _ ▸ hw
        by_cases h6' : 6 ≤ g.attempts.length + 1
        · have hstep : (playStep g tw).1 =
              { g with attempts := g.attempts ++ [attempt], status := GameStatusType.Lost } := by
            simp [playStep, ← ha, hwf, h6']
          rw [hstep]
          refine ⟨by simp; omega, by simp, by simp, ?_⟩
          intro _
          refine ⟨by simp; omega, ?_⟩
          intro a hamem
          rcases List.mem_append.mp hamem with hold | hnew
          · exact hnw a hold
          · rw [List.mem_singleton.mp hnew]
            exact hwf
        · have hstep : (playStep g tw).1 =
              { g with attempts := g.attempts ++ [attempt] } := by
            simp [playStep, ← ha, hwf, h6']
          rw [hstep]
          refine ⟨by simp; omega, ?_, by simp [hs, hwon], by simp [hs, hlost]⟩
          · intro _
            refine ⟨by simp; omega, ?_⟩
            intro a hamem
            rcases List.mem_append.mp hamem with hold | hnew
            · exact hnw a hold
            · rw [List.mem_singleton.mp hnew]
              exact hwf
  · rw [Play_not_inPlay hs]
    exact ⟨hlen, hip, hwon, hlost⟩

lemma gameInv_resign {g : WordleGame} (h : GameInv g) : GameInv (Resign g).game := by
  obtain ⟨hlen, -, -, -⟩ := h
  exact ⟨hlen, by simp [Resign], by simp [Resign], by simp [Resign]⟩

lemma reachable_gameInv {dict : List Char → Bool} {g : WordleGame}
    (h : Reachable dict g) : GameInv g := by
  induction h with
  | create id sw g hc => exact gameInv_create hc
  | play g w _ ih => exact gameInv_play ih
  | resign g _ ih => exact gameInv_resign ih

lemma isWinner_iff (a : WordleAttempt) :
    isWinner a = true ↔ ∀ hnt ∈ a.tryResult, hnt = LetterHint.Green := by
  simp [isWinner, List.all_eq_true]

/-- A dictionary accepting exactly the word "blank", used for concrete runs. -/
def dictBlank : List Char → Bool := fun w => w == ['b', 'l', 'a', 'n', 'k']

/-- The game `Create` builds for id "g1" and secret "blank". -/
def gInit : WordleGame :=
  { id := "g1", status := GameStatusType.InPlay,
    secretWord := ['b', 'l', 'a', 'n', 'k'], attempts := [] }

/-- The game after guessing the secret itself: a won game. -/
def gWon : WordleGame := (Play dictBlank gInit ['b', 'l', 'a', 'n', 'k']).game

/-- C1: the claim that `scoreWord`'s hints satisfy the duplicate-accounting
bound fails on the source: with secret "aabbb" and guess "aaaaa", the code
hints Green, Green, Yellow at the three first positions, crediting the
letter 'a' three times although the secret holds only two 'a's.  (The
source's own comment, rule 3, states the bound the code here violates.) -/
theorem C1_duplicate_bound_violated :
    scoreWord ['a', 'a', 'b', 'b', 'b'] ['a', 'a', 'a', 'a', 'a'] =
      [LetterHint.Green, LetterHint.Green, LetterHint.Yellow,
        LetterHint.Grey, LetterHint.Grey] ∧
    creditCount (scoreWord ['a', 'a', 'b', 'b', 'b'] ['a', 'a', 'a', 'a', 'a'])
      ['a', 'a', 'a', 'a', 'a'] 'a' = 3 ∧
    List.count 'a' ['a', 'a', 'b', 'b', 'b'] = 2 := by decide

/-- C2: the claim that `scoreWord` implements the canonical two-phase
(Green-priority, budgeted-Yellow) policy fails on the source: with secret
"aabbb" and guess "aaaaa" the canonical policy yields Green, Green, Grey,
Grey, Grey, while the code yields Yellow at position 2. -/
theorem C2_not_canonical_policy :
    ¬ scoreWord ['a', 'a', 'b', 'b', 'b'] ['a', 'a', 'a', 'a', 'a'] =
        canonicalScore ['a', 'a', 'b', 'b', 'b'] ['a', 'a', 'a', 'a', 'a'] ∧
    canonicalScore ['a', 'a', 'b', 'b', 'b'] ['a', 'a', 'a', 'a', 'a'] =
      [LetterHint.Green, LetterHint.Green, LetterHint.Grey,
        LetterHint.Grey, LetterHint.Grey] ∧
    (scoreWord ['a', 'a', 'b', 'b', 'b'] ['a', 'a', 'a', 'a', 'a']).getD 2 LetterHint.Grey =
      LetterHint.Yellow := by decide

/-- C3: for every game reachable by Create followed by Play/Resign calls,
Won implies the last attempt's hints are all Green, Lost implies exactly
six recorded attempts none of which is a full match, and the attempt count
never exceeds six. -/
theorem C3_status_invariants {dict : List Char → Bool} {g : WordleGame}
    (h : Reachable dict g) :
    g.attempts.length ≤ 6 ∧
    (g.status = GameStatusType.Won →
      ∃ a, g.attempts.getLast? = some a ∧ ∀ hnt ∈ a.tryResult, hnt = LetterHint.Green) ∧
    (g.status = GameStatusType.Lost →
      g.attempts.length = 6 ∧
      ∀ a ∈ g.attempts, ¬ ∀ hnt ∈ a.tryResult, hnt = LetterHint.Green) := by
  obtain ⟨hlen, hip, hwon, hlost⟩ := reachable_gameInv h
  refine ⟨hlen, ?_, ?_⟩
  · intro hW
    obtain ⟨pre, a, hpre, hwin⟩ := hwon hW
    refine ⟨a, ?_, (isWinner_iff a).mp hwin⟩
    rw [hpre]
    exact List.getLast?_concat pre
  · intro hL
    obtain ⟨h6, hnone⟩ := hlost hL
    refine ⟨h6, ?_⟩
    intro a hmem hall
    have := (isWinner_iff a).mpr hall
    rw [hnone a hmem] at this
    exact Bool.false_ne_true this

/-- Witness for C3: the freshly created game for secret "blank". -/
theorem C3_status_invariants_witness :
    gInit.attempts.length ≤ 6 ∧
    (gInit.status = GameStatusType.Won →
      ∃ a, gInit.attempts.getLast? = some a ∧ ∀ hnt ∈ a.tryResult, hnt = LetterHint.Green) ∧
    (gInit.status = GameStatusType.Lost →
      gInit.attempts.length = 6 ∧
      ∀ a ∈ gInit.attempts, ¬ ∀ hnt ∈ a.tryResult, hnt = LetterHint.Green) :=
  C3_status_invariants
    (@Reachable.create dictBlank "g1" ['b', 'l', 'a', 'n', 'k'] gInit (by rfl))

/-- C4 counterexample: the claim that no operation ever changes a terminal
status fails on the source: the reachable game `gWon` has status Won, yet
`Resign` moves it to Resigned, a different value. -/
theorem C4_terminal_status_counterexample :
    Reachable dictBlank gWon ∧
    gWon.status = GameStatusType.Won ∧
    (Resign gWon).game.status = GameStatusType.Resigned ∧
    ¬ (Resign gWon).game.status = gWon.status :=
  ⟨Reachable.play gInit ['b', 'l', 'a', 'n', 'k']
      (Reachable.create "g1" ['b', 'l', 'a', 'n', 'k'] gInit (by rfl)),
    by decide, by decide, by decide⟩

/-- C4 (amended): once the status is Won, Lost or Resigned, `Play` leaves
the game — hence its status — entirely unchanged, and neither `Play` nor
`Resign` ever returns the status to InPlay; `Resign`, however, maps any
status (including Won and Lost) to Resigned. -/
theorem C4_terminal_no_revert (dict : List Char → Bool) (g : WordleGame)
    (w : List Char) (h : ¬ g.status = GameStatusType.InPlay) :
    (Play dict g w).game = g ∧
    ¬ (Play dict g w).game.status = GameStatusType.InPlay ∧
    (Resign g).game.status = GameStatusType.Resigned ∧
    ¬ (Resign g).game.status = GameStatusType.InPlay := by
  have h1 : (Play dict g w).game = g := by rw [Play_not_inPlay h]
  exact ⟨h1, by rw [h1]; exact h, by simp [Resign], by simp [Resign]⟩

/-- Witness for C4 (amended): the won game for secret "blank". -/
theorem C4_terminal_no_revert_witness :
    (Play dictBlank gWon ['b', 'l', 'a', 'n', 'k']).game = gWon ∧
    ¬ (Play dictBlank gWon ['b', 'l', 'a', 'n', 'k']).game.status = GameStatusType.InPlay ∧
    (Resign gWon).game.status = GameStatusType.Resigned ∧
    ¬ (Resign gWon).game.status = GameStatusType.InPlay :=
  C4_terminal_no_revert dictBlank gWon ['b', 'l', 'a', 'n', 'k'] (by decide)

/-- C5: on any game still InPlay that already records six or more attempts,
`Play` fails with `OutOfTurns` (not any other error), forces the status to
Lost, and appends no attempt. -/
theorem C5_out_of_turns (dict : List Char → Bool) (g : WordleGame)
    (w : List Char) (hs : g.status = GameStatusType.InPlay)
    (hl : 6 ≤ g.attempts.length) :
    (Play dict g w).err = some GameError.OutOfTurns ∧
    (Play dict g w).game.status = GameStatusType.Lost ∧
    (Play dict g w).game.attempts = g.attempts := by
  rw [Play_out_of_turns_eq hs hl]
  exact ⟨rfl, rfl, rfl⟩

/-- A full-Grey recorded attempt, used to build concrete histories. -/
def attemptGrey : WordleAttempt :=
  { tryWord := ['q', 'u', 'e', 'r', 'y'], isValidWord := true,
    tryResult := [LetterHint.Grey, LetterHint.Grey, LetterHint.Grey,
      LetterHint.Grey, LetterHint.Grey] }

/-- A game still marked InPlay that already records six attempts. -/
def gSix : WordleGame :=
  { id := "g6", status := GameStatusType.InPlay,
    secretWord := ['b', 'l', 'a', 'n', 'k'],
    attempts := [attemptGrey, attemptGrey, attemptGrey,
      attemptGrey, attemptGrey, attemptGrey] }

/-- Witness for C5: a seventh `Play` call on a six-attempt InPlay game. -/
theorem C5_out_of_turns_witness :
    (Play dictBlank gSix ['b', 'l', 'a', 'n', 'k']).err = some GameError.OutOfTurns ∧
    (Play dictBlank gSix ['b', 'l', 'a', 'n', 'k']).game.status = GameStatusType.Lost ∧
    (Play dictBlank gSix ['b', 'l', 'a', 'n', 'k']).game.attempts = gSix.attempts :=
  C5_out_of_turns dictBlank gSix ['b', 'l', 'a', 'n', 'k'] (by decide) (by decide)

/-- C7: `Play` on a game whose status is not InPlay returns the
`GameFinished` error, a status report, and leaves the game unchanged. -/
theorem C7_game_finished (dict : List Char → Bool) (g : WordleGame)
    (w : List Char) (h : ¬ g.status = GameStatusType.InPlay) :
    (Play dict g w).err = some GameError.GameFinished ∧
    (Play dict g w).game = g ∧
    (Play dict g w).report = Report.statusRep g := by
  rw [Play_not_inPlay h]
  exact ⟨rfl, rfl, rfl⟩

/-- The resigned game for secret "blank". -/
def gResigned : WordleGame := (Resign gInit).game

/-- Witness for C7: `Play` on a resigned game. -/
theorem C7_game_finished_witness :
    (Play dictBlank gResigned ['b', 'l', 'a', 'n', 'k']).err = some GameError.GameFinished ∧
    (Play dictBlank gResigned ['b', 'l', 'a', 'n', 'k']).game = gResigned ∧
    (Play dictBlank gResigned ['b', 'l', 'a', 'n', 'k']).report = Report.statusRep gResigned :=
  C7_game_finished dictBlank gResigned ['b', 'l', 'a', 'n', 'k'] (by decide)

/-- C8: `Resign` is total and idempotent: on every game it sets the status
to Resigned, returns the status report and no error, and a second `Resign`
again yields Resigned with no error. -/
theorem C8_resign_idempotent (g : WordleGame) :
    (Resign g).game.status = GameStatusType.Resigned ∧
    (Resign g).err = none ∧
    (Resign g).report = Report.statusRep (Resign g).game ∧
    (Resign (Resign g).game).game.status = GameStatusType.Resigned ∧
    (Resign (Resign g).game).err = none ∧
    (Resign (Resign g).game).report = Report.statusRep (Resign (Resign g).game).game := by
  exact ⟨rfl, rfl, rfl, rfl, rfl, rfl⟩

lemma validateId_eq_none {id : String} (h : ¬ id = "") : validateId id = none := by
  unfold validateId
  rw [if_neg]
  intro hlt
  apply h
  have hz : id.length = 0 := by omega
  cases id with
  | mk data =>
    cases data with
    | nil => rfl
    | cons a l => simp [String.length] at hz

/-- C6 counterexample: the claim that `Delete` on an unknown id fails with
`NotFound` rather than `InvalidId` fails on the source: on a store holding
only "k1", deleting the absent non-empty id "s1" returns `ErrInvalidId`. -/
theorem C6_delete_unknown_counterexample :
    (wsDelete (⟨[("k1", 0)]⟩ : WordleStoreState Nat) "s1").2 = some StoreError.InvalidId ∧
    ¬ (wsDelete (⟨[("k1", 0)]⟩ : WordleStoreState Nat) "s1").2 = some StoreError.NotFound ∧
    ¬ ("s1" : String) = "" := by decide

/-- C6 (amended): `Delete` on an id with no entry — empty or not — fails
with `InvalidId` (the source returns `ErrInvalidId` for absent keys, not
`ErrNotFound`) and leaves the store's contents unchanged. -/
theorem C6_delete_unknown_invalidId {V : Type} (s : WordleStoreState V)
    (id : String) (h : storeFind s.games id = none) :
    (wsDelete s id).1 = s ∧ (wsDelete s id).2 = some StoreError.InvalidId := by
  unfold wsDelete
  cases hv : validateId id with
  | some e =>
    have he : e = StoreError.InvalidId := by
      unfold validateId at hv
      by_cases h0 : id.length < 1
      · rw [if_pos h0] at hv
        exact (Option.some_inj.mp hv).symm
      · rw [if_neg h0] at hv
        exact absurd hv (by simp)
    rw [he]
    exact ⟨rfl, rfl⟩
  | none =>
    simp [h]

/-- Witness for C6 (amended): deleting "gX" from the empty store. -/
theorem C6_delete_unknown_invalidId_witness :
    (wsDelete (⟨[]⟩ : WordleStoreState Nat) "gX").1 = (⟨[]⟩ : WordleStoreState Nat) ∧
    (wsDelete (⟨[]⟩ : WordleStoreState Nat) "gX").2 = some StoreError.InvalidId :=
  C6_delete_unknown_invalidId ⟨[]⟩ "gX" (by rfl)

/-- C9 counterexample: the claim that `Delete` fails with `InvalidId`
exactly when the id is empty fails on the source: deleting the non-empty
but absent id "s2" from the empty store also fails with `InvalidId`. -/
theorem C9_store_contract_counterexample :
    ¬ (((wsDelete (⟨[]⟩ : WordleStoreState Nat) "s2").2 = some StoreError.InvalidId) ↔
      ("s2" : String) = "") := by decide

/-- C9 (amended): `Save` then `Load` round-trips for every non-empty id;
`Load` on a non-empty id returns exactly the stored record — so `none`
with no error when absent; `Save`, `Load` and `Exists` fail with
`InvalidId` exactly when the id is empty; `Delete` fails with `InvalidId`
when the id is empty or when the id has no entry. -/
theorem C9_store_contract {V : Type} (s : WordleStoreState V) (id : String)
    (v : V) (h : ¬ id = "") :
    (wsSave s id v).2 = none ∧
    wsLoad (wsSave s id v).1 id = (some v, none) ∧
    wsLoad s id = (storeFind s.games id, none) ∧
    (wsExists s id).2 = none ∧
    ((wsDelete s id).2 = some StoreError.InvalidId ↔ storeFind s.games id = none) ∧
    (wsSave s "" v).2 = some StoreError.InvalidId ∧
    wsLoad s "" = (none, some StoreError.InvalidId) ∧
    wsExists s "" = (false, some StoreError.InvalidId) ∧
    wsDelete s "" = (s, some StoreError.InvalidId) := by
  have hv : validateId id = none := validateId_eq_none h
  have hv0 : validateId "" = some StoreError.InvalidId := rfl
  refine ⟨?_, ?_, ?_, ?_, ?_, ?_, ?_, ?_, ?_⟩
  · simp [wsSave, hv]
  · simp [wsSave, wsLoad, hv, storeFind]
  · simp [wsLoad, hv]
  · simp [wsExists, hv]
  · unfold wsDelete
    rw [hv]
    cases hf : storeFind s.games id with
    | some u => simp [hf]
    | none => simp [hf]
  · simp [wsSave, hv0]
  · simp [wsLoad, hv0]
  · simp [wsExists, hv0]
  · simp [wsDelete, hv0]

/-- Witness for C9 (amended): the singleton store holding ("a", 3), the
fresh id "b" and the value 7. -/
theorem C9_store_contract_witness :
    (wsSave (⟨[("a", 3)]⟩ : WordleStoreState Nat) "b" 7).2 = none ∧
    wsLoad (wsSave (⟨[("a", 3)]⟩ : WordleStoreState Nat) "b" 7).1 "b" = (some 7, none) ∧
    wsLoad (⟨[("a", 3)]⟩ : WordleStoreState Nat) "b" =
      (storeFind [("a", 3)] "b", none) ∧
    (wsExists (⟨[("a", 3)]⟩ : WordleStoreState Nat) "b").2 = none ∧
    ((wsDelete (⟨[("a", 3)]⟩ : WordleStoreState Nat) "b").2 = some StoreError.InvalidId ↔
      storeFind [("a", 3)] "b" = none) ∧
    (wsSave (⟨[("a", 3)]⟩ : WordleStoreState Nat) "" 7).2 = some StoreError.InvalidId ∧
    wsLoad (⟨[("a", 3)]⟩ : WordleStoreState Nat) "" = (none, some StoreError.InvalidId) ∧
    wsExists (⟨[("a", 3)]⟩ : WordleStoreState Nat) "" = (false, some StoreError.InvalidId) ∧
    wsDelete (⟨[("a", 3)]⟩ : WordleStoreState Nat) "" =
      ((⟨[("a", 3)]⟩ : WordleStoreState Nat), some StoreError.InvalidId) :=
  C9_store_contract ⟨[("a", 3)]⟩ "b" 7 (by decide)

lemma validateWord_error {dict : List Char → Bool} {w : List Char}
    {e : GameError} (h : validateWord dict w = Except.error e) :
    e = GameError.WordInvalid := by
  unfold validateWord at h
  by_cases hc : w.length = CONFIG_GAME_WORDLENGTH ∧ dict (w.map Char.toLower) = true
  · rw [if_pos hc] at h
    exact absurd h (by simp)
  · rw [if_neg hc] at h
    exact (Except.error.inj h).symm

/-- C10: `Play` returns the literal empty-object report exactly when the
word validation rejects the guess (with the game InPlay and turns left);
in that case the error is `WordInvalid` and the game is unchanged, and in
every other outcome the report is a status report or a turn report. -/
theorem C10_invalid_word_empty_report (dict : List Char → Bool)
    (g : WordleGame) (w : List Char) :
    ((Play dict g w).report = Report.emptyObject ↔
      g.status = GameStatusType.InPlay ∧ ¬ 6 ≤ g.attempts.length ∧
        validateWord dict w = Except.error GameError.WordInvalid) ∧
    ((Play dict g w).report = Report.emptyObject →
      (Play dict g w).err = some GameError.WordInvalid ∧ (Play dict g w).game = g) := by
  by_cases hs : g.status = GameStatusType.InPlay
  · by_cases h6 : 6 ≤ g.attempts.length
    · rw [Play_out_of_turns_eq hs h6]
      constructor
      · constructor
        · intro hr
          exact absurd hr (by simp)
        · rintro ⟨-, hn6, -⟩
          exact absurd h6 hn6
      · intro hr
        exact absurd hr (by simp)
    · cases hv : validateWord dict w with
      | error e =>
        have he : e = GameError.WordInvalid := validateWord_error hv
        subst he
        rw [Play_invalid_eq hs h6 hv]
        exact ⟨by simp [hs, h6, hv], fun _ => ⟨rfl, rfl⟩⟩
      | ok tw =>
        rw [Play_valid_eq hs h6 hv]
        constructor
        · constructor
          · intro hr
            exact absurd hr (by simp)
          · rintro ⟨-, -, hverr⟩
            exact absurd hverr (by simp)
        · intro hr
          exact absurd hr (by simp)
  · rw [Play_not_inPlay hs]
    constructor
    · constructor
      · intro hr
        exact absurd hr (by simp)
      · rintro ⟨hs', -, -⟩
        exact absurd hs' hs
    · intro hr
      exact absurd hr (by simp)

/-- Witness for C10: the fresh "blank" game and the rejected guess
"xxxxx". -/
theorem C10_invalid_word_empty_report_witness :
    ((Play dictBlank gInit ['x', 'x', 'x', 'x', 'x']).report = Report.emptyObject ↔
      gInit.status = GameStatusType.InPlay ∧ ¬ 6 ≤ gInit.attempts.length ∧
        validateWord dictBlank ['x', 'x', 'x', 'x', 'x'] =
          Except.error GameError.WordInvalid) ∧
    ((Play dictBlank gInit ['x', 'x', 'x', 'x', 'x']).report = Report.emptyObject →
      (Play dictBlank gInit ['x', 'x', 'x', 'x', 'x']).err = some GameError.WordInvalid ∧
      (Play dictBlank gInit ['x', 'x', 'x', 'x', 'x']).game = gInit) :=
  C10_invalid_word_empty_report dictBlank gInit ['x', 'x', 'x', 'x', 'x']

end Wordle
